import Mathlib

/-!
Verification of the assisted-lookup + in-memory suggestion subsystem of the
ndc-compare-backend service (src/sqlite-backup.js, src/unnamed/part_000, and
the key-derivation helpers of src/server.js).

The JavaScript is shallowly embedded: module-level mutable state (the backup
database handle, the suggestion index, the published size global) is passed
explicitly; promises are modelled by their settlement behaviour (a settle
time in milliseconds plus an `Except`-outcome, a rejected promise being
`Except.error`); a rejection that escapes a function is `JsResult.thrown`.
String-valued or null columns are `Option String`, with JavaScript
truthiness (`null`/`undefined`/`""` falsy) made explicit.
-/

/-- Result of running a JS async function to completion: either a value or an
uncaught exception / promise rejection escaping to the caller. -/
inductive JsResult (α : Type) where
  | val : α → JsResult α
  | thrown : JsResult α
  deriving Repr, DecidableEq

/-- JS truthiness of a string-or-nullish value: `null`, `undefined` and `""`
are falsy, every other string is truthy. -/
def jsTruthyS (o : Option String) : Bool :=
  match o with
  | none => false
  | some s => s ≠ ""

/-- JS `x || null` on a string-or-nullish value: a falsy value becomes null. -/
def jsOrNull (o : Option String) : Option String :=
  match o with
  | none => none
  | some s => if s = "" then none else some s

/-- JS `String(x || '')` on a string-or-nullish value. -/
def jsStr (o : Option String) : String :=
  o.getD ""

/-- ASCII lowercasing, modelling `String.prototype.toLowerCase` on the ASCII
range used by the data (kept as an explicit char map for kernel reduction). -/
def lowerStr (s : String) : String :=
  ⟨s.data.map Char.toLower⟩

/-- JS `q.replace(/\D/g, '')`: keep only the decimal digits. -/
def digitsOf (s : String) : String :=
  ⟨s.data.filter Char.isDigit⟩

/-- JS `s.startsWith(pat)`. -/
def strStarts (s pat : String) : Bool :=
  pat.data.isPrefixOf s.data

/-- Helper for substring containment over character lists. -/
def containsSub : List Char → List Char → Bool
  | [], pat => pat.isEmpty
  | c :: t, pat => pat.isPrefixOf (c :: t) || containsSub t pat

/-- JS `s.includes(pat)`. -/
def strIncludes (s pat : String) : Bool :=
  containsSub s.data pat.data

/-- `envTrue` from src/sqlite-backup.js: `null`/`undefined` gives the default,
otherwise the value must match `/^true$/i`. -/
def envTrue (v : Option String) (dflt : Bool) : Bool :=
  match v with
  | none => dflt
  | some s => lowerStr s = "true"

/- ---------- data model: backup rows and the common record shape ---------- -/

/-- A row of the backup table, restricted to the columns `mapBackupRow`
reads. Each column is string-or-null. -/
structure BackupRow where
  NDCPACKAGECODE : Option String
  PROPRIETARYNAME : Option String
  PROPRIETARYNAMESUFFIX : Option String
  NONPROPRIETARYNAME : Option String
  SUBSTANCENAME : Option String
  DOSAGEFORMNAME : Option String
  ROUTENAME : Option String
  ACTIVE_NUMERATOR_STRENGTH : Option String
  ACTIVE_INGRED_UNIT : Option String
  DEASCHEDULE_NUMERIC : Option String
  DEASCHEDULE : Option String
  deriving Repr, DecidableEq

/-- The record shape produced by `mapBackupRow` (and, by duck typing, the
shape of whatever object the caller-supplied primary lookup resolves with).
`_source` is the provenance tag field; a record that never had one carries
`none`. -/
structure DrugRecord where
  normalizedLP : Option String
  ndc10 : Option String
  proprietaryName : Option String
  proprietaryNameSuffix : Option String
  nonProprietaryName : Option String
  substanceName : Option String
  dosageForm : Option String
  routeName : Option String
  strengthText : Option String
  deaClass : Option String
  discontinuedStatus : Option String
  shortageStatus : Option String
  refrigerate : Option String
  niosh_code : Option String
  gpi : Option String
  rxcui : Option String
  _source : Option String
  deriving Repr, DecidableEq

/-- A row of the `v_ndc_suggest` view (richest shape; which columns a given
bulk select actually returns is governed by the schema flags below). -/
structure SuggestRow where
  lp : Option String
  ndc10 : Option String
  brand : Option String
  generic : Option String
  substance : Option String
  strength : Option String
  ndc_digits : Option String
  deriving Repr, DecidableEq

/-- State of the opened backup SQLite database, as far as the embedded code
observes it: the rows of the configured point-lookup table, whether the
point-lookup SQL rejects (e.g. a misconfigured table), and the
`v_ndc_suggest` view together with which of its columns exist. -/
structure BackupDb where
  rows : List BackupRow
  pointQueryFails : Bool
  viewExists : Bool
  hasBaseCols : Bool
  hasSubstanceCol : Bool
  hasStrengthCol : Bool
  viewRows : List SuggestRow
  deriving Repr, DecidableEq

/- ---------- the SQL labeler-product key of a backup row ---------- -/

/-- Value of a digit run, used by the SQLite `CAST(... AS INT)` model. -/
def parseDigits (cs : List Char) : Nat :=
  cs.foldl (fun n c => 10 * n + (c.toNat - 48)) 0

/-- SQLite `CAST(text AS INT)`: skip leading whitespace, read an optional
sign and then the longest digit run; anything else (or nothing) is 0. -/
def sqliteCastInt (s : String) : Int :=
  let cs := s.data.dropWhile (fun c => c = ' ' || c = '\t' || c = '\n' || c = '\r')
  match cs with
  | '-' :: rest => -(parseDigits (rest.takeWhile Char.isDigit) : Int)
  | '+' :: rest => (parseDigits (rest.takeWhile Char.isDigit) : Int)
  | _ => (parseDigits (cs.takeWhile Char.isDigit) : Int)

/-- The WHERE expression of `getFromBackupByLabelerProduct`: the first two
dash-separated segments of the NDCPACKAGECODE column, each `CAST ... AS INT`
(so leading zeros are stripped), rejoined with `-`.  A missing first or
second dash makes the corresponding `substr` empty (SQLite `instr` returns 0
and a negative length yields the empty string), which casts to 0. -/
def backupKeyOf (code : String) : String :=
  let cs := code.data
  let seg1 := if cs.contains '-' then cs.takeWhile (· ≠ '-') else []
  let rest := (cs.dropWhile (· ≠ '-')).drop 1
  let seg2 := if rest.contains '-' then rest.takeWhile (· ≠ '-') else []
  toString (sqliteCastInt ⟨seg1⟩) ++ "-" ++ toString (sqliteCastInt ⟨seg2⟩)

/-- Whether a backup row matches the point-lookup key (`NULL` never does). -/
def rowMatchesLp (lp : String) (r : BackupRow) : Bool :=
  match r.NDCPACKAGECODE with
  | none => false
  | some code => backupKeyOf code = lp

/-- The row the point-lookup SQL would return (first match, `LIMIT 1`),
ignoring the possibility of the query rejecting. -/
def backupFind (db : Option BackupDb) (lp : String) : Option BackupRow :=
  match db with
  | none => none
  | some d => d.rows.find? (rowMatchesLp lp)

/-- The backup point query does not reject (no misconfigured schema). -/
def backupOk (db : Option BackupDb) : Prop :=
  ∀ d, db = some d → d.pointQueryFails = false

/- ---------- mapBackupRow (identical in both sqlite-backup variants) ----- -/

/-- `mapBackupRow(row, normalizedLP)` from src/sqlite-backup.js (and
src/unnamed/part_000): maps a backup row into the common record shape and
tags it `_source: 'sqlite-backup'`. -/
def mapBackupRow (row : Option BackupRow) (normalizedLP : String) : Option DrugRecord :=
  match row with
  | none => none
  | some r =>
    some {
      normalizedLP := some normalizedLP
      ndc10 := r.NDCPACKAGECODE
      proprietaryName := r.PROPRIETARYNAME
      proprietaryNameSuffix := r.PROPRIETARYNAMESUFFIX
      nonProprietaryName := r.NONPROPRIETARYNAME
      substanceName := r.SUBSTANCENAME
      dosageForm := r.DOSAGEFORMNAME
      routeName := r.ROUTENAME
      strengthText :=
        if jsTruthyS r.ACTIVE_NUMERATOR_STRENGTH && jsTruthyS r.ACTIVE_INGRED_UNIT then
          some (jsStr r.ACTIVE_NUMERATOR_STRENGTH ++ " " ++ jsStr r.ACTIVE_INGRED_UNIT)
        else none
      deaClass := r.DEASCHEDULE_NUMERIC.orElse fun _ => r.DEASCHEDULE
      discontinuedStatus := none
      shortageStatus := none
      refrigerate := none
      niosh_code := none
      gpi := none
      rxcui := none
      _source := some "sqlite-backup" }

/- ---------- the caller-supplied primary lookup ---------- -/

/-- Settlement behaviour of one call of the caller-supplied async primary
lookup: when (in ms) its promise settles, and whether it resolves with a
record-or-null (`Except.ok`) or rejects (`Except.error`). -/
structure PrimaryBehavior where
  settleMs : Nat
  outcome : Except Unit (Option DrugRecord)

/-- Value of `primaryFn(normalizedLP).catch(() => null)` once settled:
a rejection is converted to null. -/
def primarySettled (p : PrimaryBehavior) : Option DrugRecord :=
  match p.outcome with
  | .error _ => none
  | .ok r => r

namespace SqliteBackup

/-- `getFromBackupByLabelerProduct(lp)` from src/sqlite-backup.js.  No
backup handle gives null; otherwise the SQL either rejects (this variant has
no try/catch, so the rejection escapes) or returns the first matching row. -/
def getFromBackupByLabelerProduct (db : Option BackupDb) (lp : String) :
    JsResult (Option BackupRow) :=
  match db with
  | none => .val none
  | some d =>
    if d.pointQueryFails then .thrown
    else .val (d.rows.find? (rowMatchesLp lp))

/-- `getNdcWithAssist(normalizedLP, primaryFn, {deadlineMs})` from
src/sqlite-backup.js, instrumented with a flag recording whether the backup
source was queried during the call.

`Promise.race([primary, timer])` is modelled as: the primary's settled value
if it settles strictly before the timer fires, otherwise the timer's null.
(The `done` flag in the source only silences the timer after a return; it
has no observable effect on the returned value.)  If the raced value is
truthy it is returned as-is; otherwise the backup is consulted, and failing
that the primary is awaited with no further deadline (`late || null`). -/
def getNdcWithAssistT (db : Option BackupDb) (lp : String) (p : PrimaryBehavior)
    (deadlineMs : Nat := 200) : JsResult (Option DrugRecord) × Bool :=
  let prim := primarySettled p
  let fast := if p.settleMs < deadlineMs then prim else none
  match fast with
  | some r => (.val (some r), false)
  | none =>
    match getFromBackupByLabelerProduct db lp with
    | .thrown => (.thrown, true)
    | .val (some row) => (.val (mapBackupRow (some row) lp), true)
    | .val none => (.val prim, true)

/-- The value (or escaped rejection) returned by `getNdcWithAssist`. -/
def getNdcWithAssist (db : Option BackupDb) (lp : String) (p : PrimaryBehavior)
    (deadlineMs : Nat := 200) : JsResult (Option DrugRecord) :=
  (getNdcWithAssistT db lp p deadlineMs).1

/-- Whether the call queried the backup source. -/
def assistBackupQueried (db : Option BackupDb) (lp : String) (p : PrimaryBehavior)
    (deadlineMs : Nat := 200) : Bool :=
  (getNdcWithAssistT db lp p deadlineMs).2

end SqliteBackup

namespace Part000

/-- `getFromBackupByLabelerProduct(lp)` from src/unnamed/part_000: identical
to the src/sqlite-backup.js variant except the `backupDb.get` is wrapped in
try/catch, so a rejected query degrades to null. -/
def getFromBackupByLabelerProduct (db : Option BackupDb) (lp : String) :
    JsResult (Option BackupRow) :=
  match db with
  | none => .val none
  | some d =>
    if d.pointQueryFails then .val none
    else .val (d.rows.find? (rowMatchesLp lp))

/-- `getNdcWithAssist` from src/unnamed/part_000 (same race structure as the
src/sqlite-backup.js variant, but its backup lookup cannot throw). -/
def getNdcWithAssist (db : Option BackupDb) (lp : String) (p : PrimaryBehavior)
    (deadlineMs : Nat := 200) : JsResult (Option DrugRecord) :=
  let prim := primarySettled p
  let fast := if p.settleMs < deadlineMs then prim else none
  match fast with
  | some r => .val (some r)
  | none =>
    match getFromBackupByLabelerProduct db lp with
    | .thrown => .thrown
    | .val (some row) => .val (mapBackupRow (some row) lp)
    | .val none => .val prim

end Part000

/- ---------- the in-memory suggest index ---------- -/

/-- An entry of the in-memory suggest index: the lean public fields plus the
precomputed lowercase / digits-only shadow fields used for matching.  In the
part_000 variant `substance`/`strength`/`_sub` may be absent from the object;
absence is modelled as `none` / `""` (indistinguishable to the query code,
which only tests truthiness). -/
structure SuggestEntry where
  lp : String
  ndc10 : Option String
  brand : Option String
  generic : Option String
  substance : Option String
  strength : Option String
  _lp : String
  _digits : String
  _brand : String
  _generic : String
  _sub : String
  deriving Repr, DecidableEq

/-- The lean payload `querySuggestRAM` returns per entry (shadow fields
stripped). -/
structure SuggestPayload where
  lp : String
  ndc10 : Option String
  brand : Option String
  generic : Option String
  substance : Option String
  strength : Option String
  deriving Repr, DecidableEq

/-- Destructuring `({lp, ndc10, brand, generic, substance, strength}) => ...`
at the end of `querySuggestRAM`. -/
def leanPayload (r : SuggestEntry) : SuggestPayload :=
  { lp := r.lp, ndc10 := r.ndc10, brand := r.brand, generic := r.generic
    substance := r.substance, strength := r.strength }

/-- Environment configuration consumed by the index builder: the raw values
of NDC_SUGGEST_INCLUDE_SUBSTANCE and NDC_SUGGEST_INCLUDE_STRENGTH. -/
structure SuggestEnv where
  includeSubstanceEnv : Option String
  includeStrengthEnv : Option String
  deriving Repr, DecidableEq

/-- Module state mutated by the builder: the index itself and the
process-wide published size (`globalThis.__NDC_SUGGEST_SIZE__`, `none` while
never yet written). -/
structure SuggestState where
  suggestIndex : List SuggestEntry
  publishedSize : Option Nat
  deriving Repr, DecidableEq

/-- A bulk `SELECT ... FROM v_ndc_suggest LIMIT ?`: it rejects when the view
is missing, the base columns are missing, or a requested optional column
(substance / strength) is missing; otherwise it returns the first `limit`
rows. -/
def bulkSelect (d : BackupDb) (needSub needStr : Bool) (limit : Nat) :
    JsResult (List SuggestRow) :=
  if d.viewExists && d.hasBaseCols && (!needSub || d.hasSubstanceCol)
      && (!needStr || d.hasStrengthCol) then
    .val (d.viewRows.take limit)
  else .thrown

namespace SqliteBackup

/-- The per-row mapping inside `buildSuggestIndex` of src/sqlite-backup.js:
public fields via `|| null`, shadow fields lowercased, substance/strength
kept only when the succeeding select had the column AND the env flag wants
it. -/
def mkEntry (r : SuggestRow) (includeSubstance includeStrength : Bool) : SuggestEntry :=
  let lp := jsStr r.lp
  { lp := lp
    ndc10 := jsOrNull r.ndc10
    brand := jsOrNull r.brand
    generic := jsOrNull r.generic
    substance := if includeSubstance then jsOrNull r.substance else none
    strength := if includeStrength then jsOrNull r.strength else none
    _lp := lowerStr lp
    _digits := lowerStr (jsStr r.ndc_digits)
    _brand := lowerStr (jsStr (jsOrNull r.brand))
    _generic := lowerStr (jsStr (jsOrNull r.generic))
    _sub := if includeSubstance then lowerStr (jsStr r.substance) else "" }

/-- `buildSuggestIndex({limit})` from src/sqlite-backup.js.  Three attempts:
the full column set, then dropping `strength`, then dropping `substance`
too.  The third attempt is NOT guarded by a try/catch, so if it also fails
the rejection escapes and the module state is left unchanged.  On success
the index is wholesale-replaced and its size published. -/
def buildSuggestIndex (db : Option BackupDb) (env : SuggestEnv) (limit : Nat)
    (st : SuggestState) : JsResult SuggestState :=
  match db with
  | none => .val st
  | some d =>
    let wantSub := envTrue env.includeSubstanceEnv true
    let wantStr := envTrue env.includeStrengthEnv true
    let attempt :=
      match bulkSelect d true true limit with
      | .val rs => (JsResult.val rs, true, true)
      | .thrown =>
        match bulkSelect d true false limit with
        | .val rs => (JsResult.val rs, true, false)
        | .thrown => (bulkSelect d false false limit, false, false)
    match attempt with
    | (.thrown, _, _) => .thrown
    | (.val rows, hasSub, hasStr) =>
      let includeSubstance := hasSub && wantSub
      let includeStrength := hasStr && wantStr
      let idx := rows.map fun r => mkEntry r includeSubstance includeStrength
      .val { suggestIndex := idx, publishedSize := some idx.length }

/-- Module state after a call of the src/sqlite-backup.js `buildSuggestIndex`
whether or not it threw (an escaped rejection leaves the state unchanged). -/
def buildAfter (db : Option BackupDb) (env : SuggestEnv) (limit : Nat)
    (st : SuggestState) : SuggestState :=
  match buildSuggestIndex db env limit st with
  | .val st' => st'
  | .thrown => st

end SqliteBackup

namespace Part000

/-- The per-row mapping inside `tryLoadSuggest` of src/unnamed/part_000:
`_digits` prefers the supplied digit column, else derives from the dashed
identifier; `substance`/`_sub` and `strength` are only set when the column
was requested (`'substance' in r`). -/
def mkEntry (r : SuggestRow) (reqSub reqStr : Bool) : SuggestEntry :=
  { lp := jsStr r.lp
    ndc10 := jsOrNull r.ndc10
    brand := jsOrNull r.brand
    generic := jsOrNull r.generic
    substance := if reqSub then jsOrNull r.substance else none
    strength := if reqStr then jsOrNull r.strength else none
    _lp := lowerStr (jsStr r.lp)
    _digits :=
      lowerStr (if jsTruthyS r.ndc_digits then jsStr r.ndc_digits
                else digitsOf (jsStr r.ndc10))
    _brand := lowerStr (jsStr r.brand)
    _generic := lowerStr (jsStr r.generic)
    _sub := if reqSub then lowerStr (jsStr r.substance) else "" }

/-- The attempt loop of `tryLoadSuggest`: each element is the
(substance-requested, strength-requested) pair of one column-set attempt; a
failed select falls through to the next, and exhausting all attempts yields
the empty list (logged, not thrown). -/
def tryAttempts (d : BackupDb) (limit : Nat) : List (Bool × Bool) → List SuggestEntry
  | [] => []
  | (reqSub, reqStr) :: rest =>
    match bulkSelect d reqSub reqStr limit with
    | .val rows => rows.map fun r => mkEntry r reqSub reqStr
    | .thrown => tryAttempts d limit rest

/-- `tryLoadSuggest(limit)` from src/unnamed/part_000.  The column-set
attempts are: base + strength + substance, base + strength, base +
substance, base — where `strength` is only ever requested when
INCLUDE_STRENGTH is set and `substance` when INCLUDE_SUBSTANCE is set. -/
def tryLoadSuggest (db : Option BackupDb) (env : SuggestEnv) (limit : Nat) :
    List SuggestEntry :=
  match db with
  | none => []
  | some d =>
    let ws := envTrue env.includeStrengthEnv true
    let wsub := envTrue env.includeSubstanceEnv true
    tryAttempts d limit [(wsub, ws), (false, ws), (wsub, false), (false, false)]

/-- `buildSuggestIndex({limit})` from src/unnamed/part_000: checks that the
`v_ndc_suggest` view exists (absent → empty index, size 0, no error), then
loads via `tryLoadSuggest` and defensively re-slices to `limit`. -/
def buildSuggestIndex (db : Option BackupDb) (env : SuggestEnv) (limit : Nat)
    (st : SuggestState) : JsResult SuggestState :=
  match db with
  | none => .val st
  | some d =>
    if !d.viewExists then
      .val { suggestIndex := [], publishedSize := some 0 }
    else
      let rows := tryLoadSuggest (some d) env limit
      let idx := rows.take limit
      .val { suggestIndex := idx, publishedSize := some idx.length }

/-- Module state after a call of the part_000 `buildSuggestIndex` whether or
not it threw. -/
def buildAfter (db : Option BackupDb) (env : SuggestEnv) (limit : Nat)
    (st : SuggestState) : SuggestState :=
  match buildSuggestIndex db env limit st with
  | .val st' => st'
  | .thrown => st

end Part000

/- ---------- querySuggestRAM (identical logic in both variants) ---------- -/

/-- One matching pass of `querySuggestRAM`: scan the index in load order and
append every entry satisfying the predicate while fewer than `limit` entries
have been collected (the source's `push` guard; its `break` on reaching the
limit has no further observable effect). -/
def pushLoop (limit : Nat) (p : SuggestEntry → Bool) (idx : List SuggestEntry)
    (out : List SuggestEntry) : List SuggestEntry :=
  idx.foldl (fun out r => if p r && decide (out.length < limit) then out ++ [r] else out) out

/-- Pass 1 criterion: `r._lp.startsWith(s)`. -/
def lpMatch (s : String) (r : SuggestEntry) : Bool :=
  strStarts r._lp s

/-- Pass 2 criterion: `r._digits.startsWith(digits)`. -/
def digitMatch (digits : String) (r : SuggestEntry) : Bool :=
  strStarts r._digits digits

/-- Pass 3 criterion: brand/generic contains, or substance (when truthy)
contains. -/
def nameMatch (s : String) (r : SuggestEntry) : Bool :=
  strIncludes r._brand s || strIncludes r._generic s ||
    (r._sub ≠ "" && strIncludes r._sub s)

/-- `querySuggestRAM(q, {limit})` from src/sqlite-backup.js (the part_000
variant is character-for-character the same logic): empty query → empty
list; otherwise three passes in priority order — labeler-product prefix,
digits prefix (only when the query has digits), name substring — each
cumulative and capped at `limit`, finally projected to the lean payload. -/
def querySuggestRAM (idx : List SuggestEntry) (q : String) (limit : Nat := 20) :
    List SuggestPayload :=
  if q = "" then []
  else
    let s := lowerStr q
    let digits := digitsOf q
    let out := pushLoop limit (lpMatch s) idx []
    let out :=
      if decide (out.length < limit) && digits ≠ "" then
        pushLoop limit (digitMatch digits) idx out
      else out
    let out :=
      if out.length < limit then pushLoop limit (nameMatch s) idx out
      else out
    out.map leanPayload

/- ---------- key derivation helpers from src/server.js ---------- -/

/-- The whitespace class removed by `String.prototype.trim` (restricted to
the ASCII whitespace that can occur in this data). -/
def jsWs (c : Char) : Bool :=
  c = ' ' || c = '\t' || c = '\n' || c = '\r'

/-- JS `String(input).trim()`. -/
def jsTrim (s : String) : String :=
  ⟨((s.data.dropWhile jsWs).reverse.dropWhile jsWs).reverse⟩

/-- JS `raw.split('-')` over the characters of the string: the (possibly
empty) runs between dashes, in order. -/
def splitDash : List Char → List (List Char)
  | [] => [[]]
  | c :: rest =>
    if c = '-' then [] :: splitDash rest
    else
      match splitDash rest with
      | [] => [[c]]
      | h :: t => (c :: h) :: t

/-- JS `/^\d+$/.test(p)`: non-empty and all decimal digits. -/
def isAllDigits (cs : List Char) : Bool :=
  !cs.isEmpty && cs.all Char.isDigit

/-- `stripLeadingZeros` from src/server.js:
`(v) => String(v || '').replace(/^0+/, '') || '0'`. -/
def stripLeadingZeros (v : String) : String :=
  let stripped : String := ⟨v.data.dropWhile (· == '0')⟩
  if stripped = "" then "0" else stripped

/-- The `push(a, b)` helper of `deriveLabelerProductCandidates`:
``out.push(`${stripLeadingZeros(a)}-${stripLeadingZeros(b)}`)``. -/
def pushLP (a b : List Char) : String :=
  stripLeadingZeros ⟨a⟩ ++ "-" ++ stripLeadingZeros ⟨b⟩

/-- Helper for `Array.from(new Set(out))`: drop later duplicates, keeping
first occurrences in insertion order. -/
def jsSetDedupAux (seen : List String) : List String → List String
  | [] => []
  | x :: xs =>
    if x ∈ seen then jsSetDedupAux seen xs
    else x :: jsSetDedupAux (x :: seen) xs

/-- JS `Array.from(new Set(out))`. -/
def jsSetDedup (l : List String) : List String :=
  jsSetDedupAux [] l

/-- The contiguous-digit fallback of `deriveLabelerProductCandidates`
(reached when the input is not three dash-separated digit runs):
11 digits → 5-4; 10 digits → the 4-4, 5-3 and 5-4 guesses; ≥ 9 digits →
5-4; otherwise no candidates. -/
def contiguousCandidates (digits : List Char) : List String :=
  if digits.length == 11 then
    jsSetDedup [pushLP (digits.take 5) ((digits.drop 5).take 4)]
  else if digits.length == 10 then
    jsSetDedup [pushLP (digits.take 4) ((digits.drop 4).take 4),
                pushLP (digits.take 5) ((digits.drop 5).take 3),
                pushLP (digits.take 5) ((digits.drop 5).take 4)]
  else if digits.length ≥ 9 then
    jsSetDedup [pushLP (digits.take 5) ((digits.drop 5).take 4)]
  else
    jsSetDedup []

/-- `deriveLabelerProductCandidates(input)` from src/server.js.  An empty
(falsy) input has no candidates.  A dashed input of exactly three all-digit
segments takes the first two segments — whether or not the segment widths
match a known NDC shape, both branches `push(a, b)` and return.  Anything
else falls through to the contiguous-digit guesses. -/
def deriveLabelerProductCandidates (input : String) : List String :=
  if input = "" then []
  else
    let raw := jsTrim input
    let digits := raw.data.filter Char.isDigit
    match splitDash raw.data with
    | [a, b, c] =>
      if isAllDigits a && isAllDigits b && isAllDigits c then
        if (a.length == 5 && b.length == 4 && c.length == 2) ||
           (a.length == 4 && b.length == 4 && c.length == 2) ||
           (a.length == 5 && b.length == 3 && c.length == 2) ||
           (a.length == 5 && b.length == 4 && c.length == 1) then
          jsSetDedup [pushLP a b]
        else
          jsSetDedup [pushLP a b]
      else
        contiguousCandidates digits
    | _ => contiguousCandidates digits

/- ---------- concrete instances used by witnesses / counterexamples ------ -/

/-- A record with every field null (an untagged object, as a primary DB row
would be). -/
def blankRecord : DrugRecord :=
  ⟨none, none, none, none, none, none, none, none, none,
   none, none, none, none, none, none, none, none⟩

def c1Rec : DrugRecord := { blankRecord with proprietaryName := some "FastTab" }

def c1Prim : PrimaryBehavior := { settleMs := 0, outcome := .ok (some c1Rec) }

def c2Rec : DrugRecord := { blankRecord with proprietaryName := some "QuickCap" }

def c2Prim : PrimaryBehavior := { settleMs := 10, outcome := .ok (some c2Rec) }

def c3Rec : DrugRecord := { blankRecord with proprietaryName := some "SlowTab" }

/-- A primary lookup that only settles (successfully) after the deadline. -/
def c3Prim : PrimaryBehavior := { settleMs := 500, outcome := .ok (some c3Rec) }

/-- A backup DB whose point-lookup SQL rejects (e.g. a misconfigured
NDC_SQLITE_TABLE). -/
def c3FailDb : BackupDb :=
  { rows := [], pointQueryFails := true, viewExists := true, hasBaseCols := true,
    hasSubstanceCol := true, hasStrengthCol := true, viewRows := [] }

/-- A backup DB in which the `v_ndc_suggest` view does not exist. -/
def c4Db : BackupDb :=
  { rows := [], pointQueryFails := false, viewExists := false, hasBaseCols := true,
    hasSubstanceCol := false, hasStrengthCol := false, viewRows := [] }

def c4Env : SuggestEnv := { includeSubstanceEnv := none, includeStrengthEnv := none }

def c4St : SuggestState := { suggestIndex := [], publishedSize := none }

/-- An index entry matching both the identifier-prefix and the digit-prefix
criterion for the query "1". -/
def c6Entry : SuggestEntry :=
  { lp := "1", ndc10 := none, brand := none, generic := none, substance := none,
    strength := none, _lp := "1", _digits := "1", _brand := "", _generic := "",
    _sub := "" }

def c8Rec : DrugRecord := blankRecord

def c8Prim : PrimaryBehavior := { settleMs := 0, outcome := .ok (some c8Rec) }

def c8Row : BackupRow :=
  { NDCPACKAGECODE := some "1-2-3", PROPRIETARYNAME := some "BakTab",
    PROPRIETARYNAMESUFFIX := none, NONPROPRIETARYNAME := none,
    SUBSTANCENAME := none, DOSAGEFORMNAME := none, ROUTENAME := none,
    ACTIVE_NUMERATOR_STRENGTH := none, ACTIVE_INGRED_UNIT := none,
    DEASCHEDULE_NUMERIC := none, DEASCHEDULE := none }

def c8Db : BackupDb :=
  { rows := [c8Row], pointQueryFails := false, viewExists := true,
    hasBaseCols := true, hasSubstanceCol := true, hasStrengthCol := true,
    viewRows := [] }

/-- A primary lookup that settles after the deadline with nothing. -/
def c8SlowPrim : PrimaryBehavior := { settleMs := 500, outcome := .ok none }

def c8Mapped : DrugRecord := (mapBackupRow (some c8Row) "1-2").getD blankRecord

/- ====================== theorems ====================== -/

/-- C7: a primary lookup that rejects behaves, for resolution purposes (and
for whether the backup is queried), exactly like one that resolves with an
empty result at the same time, in both assist variants. -/
theorem C7_throwing_primary_equals_empty (db : Option BackupDb) (lp : String)
    (dms t : Nat) :
    SqliteBackup.getNdcWithAssistT db lp ⟨t, .error ()⟩ dms =
      SqliteBackup.getNdcWithAssistT db lp ⟨t, .ok none⟩ dms ∧
    Part000.getNdcWithAssist db lp ⟨t, .error ()⟩ dms =
      Part000.getNdcWithAssist db lp ⟨t, .ok none⟩ dms :=
  ⟨rfl, rfl⟩

/-- C3: with the backup point query failing and a slow successful primary,
the src/sqlite-backup.js `getNdcWithAssist` lets the rejection escape to its
caller, while the part_000 variant (whose backup lookup is guarded by
try/catch) degrades to the late-primary path as the claim describes. -/
theorem C3_backup_failure_behaviour :
    SqliteBackup.getNdcWithAssist (some c3FailDb) "1-2" c3Prim 200 = .thrown ∧
    Part000.getNdcWithAssist (some c3FailDb) "1-2" c3Prim 200 =
      .val (some c3Rec) :=
  ⟨rfl, rfl⟩

/-- C2: if the caller-supplied primary lookup settles with a non-empty
record strictly before the deadline timer, `getNdcWithAssist` returns that
record and the backup source is never queried during the call. -/
theorem C2_fast_primary_skips_backup (db : Option BackupDb) (lp : String)
    (p : PrimaryBehavior) (dms : Nat) (r : DrugRecord)
    (h1 : p.settleMs < dms) (h2 : primarySettled p = some r) :
    SqliteBackup.getNdcWithAssist db lp p dms = .val (some r) ∧
    SqliteBackup.assistBackupQueried db lp p dms = false := by
  unfold SqliteBackup.getNdcWithAssist SqliteBackup.assistBackupQueried
    SqliteBackup.getNdcWithAssistT
  dsimp only
  rw [if_pos h1, h2]
  exact ⟨rfl, rfl⟩

/-- C2 witness: a concrete fast non-empty primary settles at 10 ms against a
200 ms deadline; the primary record is returned and backup never queried. -/
theorem C2_fast_primary_skips_backup_witness :
    SqliteBackup.getNdcWithAssist none "1-2" c2Prim 200 = .val (some c2Rec) ∧
    SqliteBackup.assistBackupQueried none "1-2" c2Prim 200 = false :=
  C2_fast_primary_skips_backup none "1-2" c2Prim 200 c2Rec (by decide) rfl

/-- When the backup query does not reject, the src/sqlite-backup.js backup
lookup returns exactly the first matching row. -/
theorem getFromBackup_eq_find (db : Option BackupDb) (lp : String)
    (hok : backupOk db) :
    SqliteBackup.getFromBackupByLabelerProduct db lp = .val (backupFind db lp) := by
  cases db with
  | none => rfl
  | some d =>
    unfold SqliteBackup.getFromBackupByLabelerProduct backupFind
    dsimp only
    rw [if_neg (by simp [hok d rfl])]

/-- C1: with the backup query not rejecting, one call of `getNdcWithAssist`
returns exactly one of four mutually exclusive answers, in fixed preference
order: the primary record when the primary settles non-empty before the
deadline timer; else the backup record mapped into the common shape when the
backup has a matching row; else the primary's eventual late result when
non-empty; else null. -/
theorem C1_resolve_four_outcomes (db : Option BackupDb) (lp : String)
    (p : PrimaryBehavior) (dms : Nat) (hok : backupOk db) :
    ((p.settleMs < dms ∧ (primarySettled p).isSome = true) ∧
        SqliteBackup.getNdcWithAssist db lp p dms = .val (primarySettled p)) ∨
    (¬(p.settleMs < dms ∧ (primarySettled p).isSome = true) ∧
        (backupFind db lp).isSome = true ∧
        SqliteBackup.getNdcWithAssist db lp p dms =
          .val (mapBackupRow (backupFind db lp) lp)) ∨
    (¬(p.settleMs < dms ∧ (primarySettled p).isSome = true) ∧
        backupFind db lp = none ∧ (primarySettled p).isSome = true ∧
        SqliteBackup.getNdcWithAssist db lp p dms = .val (primarySettled p)) ∨
    (¬(p.settleMs < dms ∧ (primarySettled p).isSome = true) ∧
        backupFind db lp = none ∧ primarySettled p = none ∧
        SqliteBackup.getNdcWithAssist db lp p dms = .val none) := by
  by_cases hfast : p.settleMs < dms ∧ (primarySettled p).isSome = true
  · left
    obtain ⟨h1, h2⟩ := hfast
    obtain ⟨r, hr⟩ := Option.isSome_iff_exists.mp h2
    refine ⟨⟨h1, h2⟩, ?_⟩
    unfold SqliteBackup.getNdcWithAssist SqliteBackup.getNdcWithAssistT
    dsimp only
    rw [if_pos h1, hr]
  · right
    have hmiss : (if p.settleMs < dms then primarySettled p else none) = none := by
      by_cases h1 : p.settleMs < dms
      · rw [if_pos h1]
        cases hp : primarySettled p with
        | none => rfl
        | some r => exact absurd ⟨h1, by rw [hp]; rfl⟩ hfast
      · rw [if_neg h1]
    have hres : SqliteBackup.getNdcWithAssist db lp p dms =
        (match backupFind db lp with
         | some row => JsResult.val (mapBackupRow (some row) lp)
         | none => JsResult.val (primarySettled p)) := by
      unfold SqliteBackup.getNdcWithAssist SqliteBackup.getNdcWithAssistT
      dsimp only
      rw [hmiss, getFromBackup_eq_find db lp hok]
      cases backupFind db lp <;> rfl
    by_cases hbs : (backupFind db lp).isSome = true
    · left
      refine ⟨hfast, hbs, ?_⟩
      obtain ⟨row, hb⟩ := Option.isSome_iff_exists.mp hbs
      rw [hres, hb]
    · have hb : backupFind db lp = none := by
        cases hE : backupFind db lp with
        | none => rfl
        | some row => exact absurd (by rw [hE]; rfl) hbs
      right
      by_cases hps : (primarySettled p).isSome = true
      · left
        refine ⟨hfast, hb, hps, ?_⟩
        rw [hres, hb]
      · have hpn : primarySettled p = none := by
          cases hE : primarySettled p with
          | none => rfl
          | some r => exact absurd (by rw [hE]; rfl) hps
        right
        exact ⟨hfast, hb, hpn, by rw [hres, hb, hpn]⟩

/-- C1 witness: at a fast non-empty primary (settling at 0 ms against a
200 ms deadline, with no backup DB) the first of the four outcomes holds. -/
theorem C1_resolve_four_outcomes_witness :
    ((c1Prim.settleMs < 200 ∧ (primarySettled c1Prim).isSome = true) ∧
        SqliteBackup.getNdcWithAssist none "1-2" c1Prim 200 =
          .val (primarySettled c1Prim)) ∨
    (¬(c1Prim.settleMs < 200 ∧ (primarySettled c1Prim).isSome = true) ∧
        (backupFind none "1-2").isSome = true ∧
        SqliteBackup.getNdcWithAssist none "1-2" c1Prim 200 =
          .val (mapBackupRow (backupFind none "1-2") "1-2")) ∨
    (¬(c1Prim.settleMs < 200 ∧ (primarySettled c1Prim).isSome = true) ∧
        backupFind none "1-2" = none ∧ (primarySettled c1Prim).isSome = true ∧
        SqliteBackup.getNdcWithAssist none "1-2" c1Prim 200 =
          .val (primarySettled c1Prim)) ∨
    (¬(c1Prim.settleMs < 200 ∧ (primarySettled c1Prim).isSome = true) ∧
        backupFind none "1-2" = none ∧ primarySettled c1Prim = none ∧
        SqliteBackup.getNdcWithAssist none "1-2" c1Prim 200 = .val none) :=
  C1_resolve_four_outcomes none "1-2" c1Prim 200 (fun _ h => nomatch h)

/-- C8 counterexample: a fast primary answer is returned by
`getNdcWithAssist` exactly as the primary lookup produced it, carrying no
provenance tag at all — in particular it is not tagged "primary" (nor
"backup"), contradicting the claim that every returned record carries one of
those two tags. -/
theorem C8_counterexample :
    SqliteBackup.getNdcWithAssist none "1-2" c8Prim 200 = .val (some c8Rec) ∧
    c8Rec._source ≠ some "primary" ∧ c8Rec._source ≠ some "backup" :=
  ⟨rfl, by decide, by decide⟩

/-- C8 amended: `getNdcWithAssist` adds no provenance tag of its own — every
record it returns either carries `_source = "sqlite-backup"` (set by
`mapBackupRow` on the backup path) or is exactly the record the primary
lookup settled with (fast or late), returned unmodified. -/
theorem C8_provenance_tagging (db : Option BackupDb) (lp : String)
    (p : PrimaryBehavior) (dms : Nat) :
    ∀ r, SqliteBackup.getNdcWithAssist db lp p dms = .val (some r) →
      r._source = some "sqlite-backup" ∨ primarySettled p = some r := by
  intro r h
  unfold SqliteBackup.getNdcWithAssist SqliteBackup.getNdcWithAssistT at h
  dsimp only at h
  by_cases h1 : p.settleMs < dms
  · rw [if_pos h1] at h
    by_cases hps : (primarySettled p).isSome = true
    · obtain ⟨x, hx⟩ := Option.isSome_iff_exists.mp hps
      rw [hx] at h
      dsimp only at h
      right
      rw [hx]
      cases h
      rfl
    · have hpn : primarySettled p = none := by
        cases hE : primarySettled p with
        | none => rfl
        | some x => exact absurd (by rw [hE]; rfl) hps
      rw [hpn] at h
      dsimp only at h
      cases hE : SqliteBackup.getFromBackupByLabelerProduct db lp with
      | thrown => rw [hE] at h; exact absurd h (by simp)
      | val ob =>
        rw [hE] at h
        cases ob with
        | some row =>
          dsimp only [mapBackupRow] at h
          left
          cases h
          rfl
        | none => dsimp only at h; exact absurd h (by simp)
  · rw [if_neg h1] at h
    dsimp only at h
    cases hE : SqliteBackup.getFromBackupByLabelerProduct db lp with
    | thrown => rw [hE] at h; exact absurd h (by simp)
    | val ob =>
      rw [hE] at h
      cases ob with
      | some row =>
        dsimp only [mapBackupRow] at h
        left
        cases h
        rfl
      | none =>
        right
        dsimp only at h
        injection h

/-- C8 amended witness: at a slow empty primary and a backup DB holding a
matching row, the returned record is the mapped backup row, whose tag is
"sqlite-backup". -/
theorem C8_provenance_tagging_witness :
    c8Mapped._source = some "sqlite-backup" ∨ primarySettled c8SlowPrim = some c8Mapped :=
  C8_provenance_tagging (some c8Db) "1-2" c8SlowPrim 200 c8Mapped (by decide)

/-- C9: both `buildSuggestIndex` variants are idempotent on the module state
(index and published size): with the backup content, configuration flags and
limit fixed, a second call in a row leaves exactly the state the first call
produced — the index is wholesale-recomputed from the source, never
appended, and a no-op/failing call leaves the state untouched. -/
theorem C9_build_idempotent (db : Option BackupDb) (env : SuggestEnv)
    (limit : Nat) (st : SuggestState) :
    SqliteBackup.buildAfter db env limit (SqliteBackup.buildAfter db env limit st) =
      SqliteBackup.buildAfter db env limit st ∧
    Part000.buildAfter db env limit (Part000.buildAfter db env limit st) =
      Part000.buildAfter db env limit st := by
  constructor
  · cases db with
    | none => rfl
    | some d =>
      cases h1 : bulkSelect d true true limit with
      | val rs => simp [SqliteBackup.buildAfter, SqliteBackup.buildSuggestIndex, h1]
      | thrown =>
        cases h2 : bulkSelect d true false limit with
        | val rs => simp [SqliteBackup.buildAfter, SqliteBackup.buildSuggestIndex, h1, h2]
        | thrown =>
          cases h3 : bulkSelect d false false limit with
          | val rs => simp [SqliteBackup.buildAfter, SqliteBackup.buildSuggestIndex, h1, h2, h3]
          | thrown => simp [SqliteBackup.buildAfter, SqliteBackup.buildSuggestIndex, h1, h2, h3]
  · cases db with
    | none => rfl
    | some d =>
      cases hv : d.viewExists with
      | false => simp [Part000.buildAfter, Part000.buildSuggestIndex, hv]
      | true => simp [Part000.buildAfter, Part000.buildSuggestIndex, hv]

/-- C4 counterexample: with the `v_ndc_suggest` view absent, every column-set
attempt of the src/sqlite-backup.js `buildSuggestIndex` fails and the third
(unguarded) attempt's rejection escapes — the call throws instead of leaving
the index empty, contradicting the claim that build never raises. -/
theorem C4_counterexample :
    SqliteBackup.buildSuggestIndex (some c4Db) c4Env 250000 c4St = .thrown :=
  rfl

/-- C4 amended: the part_000 `buildSuggestIndex` never raises; when the view
is absent, or every column-set attempt fails (base columns missing), it
replaces the index with the empty collection (size 0).  The
src/sqlite-backup.js variant, by contrast, has no view pre-check, narrows
over only three column sets (full, drop strength, drop substance+strength),
and its final attempt is unguarded, so in those same situations the call
throws. -/
theorem C4_build_degradation (d : BackupDb) (env : SuggestEnv) (limit : Nat)
    (st : SuggestState) :
    (∀ db', ∃ st', Part000.buildSuggestIndex db' env limit st = .val st') ∧
    ((d.viewExists = false ∨ d.hasBaseCols = false) →
      Part000.buildSuggestIndex (some d) env limit st =
        .val { suggestIndex := [], publishedSize := some 0 } ∧
      SqliteBackup.buildSuggestIndex (some d) env limit st = .thrown) := by
  constructor
  · intro db'
    cases db' with
    | none => exact ⟨st, rfl⟩
    | some d' =>
      cases hv : d'.viewExists with
      | false =>
        exact ⟨{ suggestIndex := [], publishedSize := some 0 },
          by unfold Part000.buildSuggestIndex; dsimp only; rw [hv]; rfl⟩
      | true =>
        exact ⟨{ suggestIndex := (Part000.tryLoadSuggest (some d') env limit).take limit,
                 publishedSize := some ((Part000.tryLoadSuggest (some d') env limit).take limit).length },
          by unfold Part000.buildSuggestIndex; dsimp only; rw [hv]; rfl⟩
  · intro hcond
    have hfail : ∀ ns nst, bulkSelect d ns nst limit = .thrown := by
      intro ns nst
      unfold bulkSelect
      rcases hcond with h | h <;> rw [h] <;> simp
    constructor
    · cases hv : d.viewExists with
      | false => simp [Part000.buildSuggestIndex, hv]
      | true =>
        simp [Part000.buildSuggestIndex, Part000.tryLoadSuggest,
          Part000.tryAttempts, hv, hfail]
    · simp [SqliteBackup.buildSuggestIndex, hfail]

/-- C4 amended witness: instantiated at a backup DB without the
`v_ndc_suggest` view. -/
theorem C4_build_degradation_witness :
    Part000.buildSuggestIndex (some c4Db) c4Env 250000 c4St =
      .val { suggestIndex := [], publishedSize := some 0 } ∧
    SqliteBackup.buildSuggestIndex (some c4Db) c4Env 250000 c4St = .thrown :=
  (C4_build_degradation c4Db c4Env 250000 c4St).2 (Or.inl rfl)

/-- Closed form of one matching pass: it appends, in index order, the
matching entries of the whole index, truncated to the remaining capacity —
with no regard to what the accumulator already contains. -/
theorem pushLoop_eq (limit : Nat) (p : SuggestEntry → Bool)
    (idx acc : List SuggestEntry) :
    pushLoop limit p idx acc = acc ++ (idx.filter p).take (limit - acc.length) := by
  induction idx generalizing acc with
  | nil => simp [pushLoop]
  | cons r rest ih =>
    show pushLoop limit p rest
        (if p r && decide (acc.length < limit) then acc ++ [r] else acc) =
      acc ++ ((r :: rest).filter p).take (limit - acc.length)
    by_cases hp : p r = true
    · by_cases hl : acc.length < limit
      · rw [if_pos (by rw [hp, decide_eq_true hl]; rfl)]
        rw [ih]
        have hsucc : limit - acc.length = (limit - (acc.length + 1)) + 1 := by omega
        simp [List.filter_cons, hp, hsucc, List.take_succ_cons]
      · rw [if_neg (by simp [decide_eq_false hl])]
        rw [ih]
        have h0 : limit - acc.length = 0 := by omega
        simp [h0]
    · rw [if_neg (by simp [hp])]
      rw [ih]
      simp [List.filter_cons, hp]

/-- Closed form of `querySuggestRAM` for a non-empty query: the three passes
are independent filters over the whole index, appended cumulatively under
the shared capacity (no de-duplication against earlier passes), and finally
projected to the lean payload. -/
theorem querySuggest_closed (idx : List SuggestEntry) (q : String) (limit : Nat)
    (hq : q ≠ "") :
    querySuggestRAM idx q limit =
      (let o1 := (idx.filter (lpMatch (lowerStr q))).take limit
       let o2 :=
         if o1.length < limit ∧ ¬ digitsOf q = "" then
           o1 ++ (idx.filter (digitMatch (digitsOf q))).take (limit - o1.length)
         else o1
       let o3 :=
         if o2.length < limit then
           o2 ++ (idx.filter (nameMatch (lowerStr q))).take (limit - o2.length)
         else o2
       o3.map leanPayload) := by
  unfold querySuggestRAM
  rw [if_neg hq]
  dsimp only
  simp only [pushLoop_eq, List.nil_append, List.length_nil, Nat.sub_zero,
    Bool.and_eq_true, decide_eq_true_eq, ne_eq]

/-- An element of a truncated filter satisfies the filter predicate. -/
theorem mem_filter_take {p : SuggestEntry → Bool} {idx : List SuggestEntry}
    {n : Nat} {r : SuggestEntry} (h : r ∈ (idx.filter p).take n) : p r = true :=
  List.of_mem_filter (List.take_subset _ _ h)

/-- C5: `querySuggestRAM` returns the empty list on the empty query; on any
query it returns at most `limit` entries, and the result decomposes into the
contributions of the three passes in order — identifier-prefix matches
first, then digit-prefix matches, then name-substring matches. -/
theorem C5_query_contract (idx : List SuggestEntry) (q : String) (limit : Nat) :
    querySuggestRAM idx "" limit = [] ∧
    (querySuggestRAM idx q limit).length ≤ limit ∧
    ∃ l1 l2 l3 : List SuggestEntry,
      querySuggestRAM idx q limit = ((l1 ++ l2) ++ l3).map leanPayload ∧
      (∀ r ∈ l1, lpMatch (lowerStr q) r = true) ∧
      (∀ r ∈ l2, digitMatch (digitsOf q) r = true) ∧
      (∀ r ∈ l3, nameMatch (lowerStr q) r = true) := by
  refine ⟨by simp [querySuggestRAM], ?_⟩
  by_cases hq : q = ""
  · subst hq
    refine ⟨by simp [querySuggestRAM], [], [], [], by simp [querySuggestRAM], ?_, ?_, ?_⟩
      <;> intro r hr <;> exact absurd hr (List.not_mem_nil r)
  · rw [querySuggest_closed idx q limit hq]
    dsimp only
    set A := (idx.filter (lpMatch (lowerStr q))).take limit with hA
    have hAlen : A.length ≤ limit := by
      rw [hA, List.length_take]; omega
    by_cases h2 : A.length < limit ∧ ¬ digitsOf q = ""
    · rw [if_pos h2]
      set B := (idx.filter (digitMatch (digitsOf q))).take (limit - A.length) with hB
      have hBlen : B.length ≤ limit - A.length := by
        rw [hB, List.length_take]; omega
      have hABlen : (A ++ B).length ≤ limit := by
        rw [List.length_append]; omega
      by_cases h3 : (A ++ B).length < limit
      · rw [if_pos h3]
        set C := (idx.filter (nameMatch (lowerStr q))).take (limit - (A ++ B).length)
          with hC
        have hClen : C.length ≤ limit - (A ++ B).length := by
          rw [hC, List.length_take]; omega
        refine ⟨?_, A, B, C, rfl, ?_, ?_, ?_⟩
        · rw [List.length_map, List.length_append]
          omega
        · intro r hr; rw [hA] at hr; exact mem_filter_take hr
        · intro r hr; rw [hB] at hr; exact mem_filter_take hr
        · intro r hr; rw [hC] at hr; exact mem_filter_take hr
      · rw [if_neg h3]
        refine ⟨?_, A, B, [], by simp, ?_, ?_, ?_⟩
        · rw [List.length_map]; exact hABlen
        · intro r hr; rw [hA] at hr; exact mem_filter_take hr
        · intro r hr; rw [hB] at hr; exact mem_filter_take hr
        · intro r hr; exact absurd hr (List.not_mem_nil r)
    · rw [if_neg h2]
      by_cases h3 : A.length < limit
      · rw [if_pos h3]
        set C := (idx.filter (nameMatch (lowerStr q))).take (limit - A.length) with hC
        have hClen : C.length ≤ limit - A.length := by
          rw [hC, List.length_take]; omega
        refine ⟨?_, A, [], C, by simp, ?_, ?_, ?_⟩
        · rw [List.length_map, List.length_append]; omega
        · intro r hr; rw [hA] at hr; exact mem_filter_take hr
        · intro r hr; exact absurd hr (List.not_mem_nil r)
        · intro r hr; rw [hC] at hr; exact mem_filter_take hr
      · rw [if_neg h3]
        refine ⟨?_, A, [], [], by simp, ?_, ?_, ?_⟩
        · rw [List.length_map]; exact hAlen
        · intro r hr; rw [hA] at hr; exact mem_filter_take hr
        · intro r hr; exact absurd hr (List.not_mem_nil r)
        · intro r hr; exact absurd hr (List.not_mem_nil r)

/-- C6 counterexample: an entry whose lowercase key and digit shadow both
start with "1" is contributed by pass 1 AND again by pass 2 while the limit
(20) is far from reached — the returned list holds the same entry twice, so
the passes do NOT contribute only entries unselected by earlier passes. -/
theorem C6_counterexample :
    querySuggestRAM [c6Entry] "1" 20 = [leanPayload c6Entry, leanPayload c6Entry] ∧
    ¬ (querySuggestRAM [c6Entry] "1" 20).Nodup := by
  constructor
  · rfl
  · decide

/-- C6 amended: no pass de-duplicates against earlier passes — each pass
contributes, in load order, every entry matching its own criterion up to the
remaining capacity, regardless of what earlier passes selected, so an entry
matching several passes appears once per matching pass (subject to the
overall `limit` cap). -/
theorem C6_passes_cumulative_no_dedup (idx : List SuggestEntry) (q : String)
    (limit : Nat) (hq : q ≠ "") :
    querySuggestRAM idx q limit =
      (let o1 := (idx.filter (lpMatch (lowerStr q))).take limit
       let o2 :=
         if o1.length < limit ∧ ¬ digitsOf q = "" then
           o1 ++ (idx.filter (digitMatch (digitsOf q))).take (limit - o1.length)
         else o1
       let o3 :=
         if o2.length < limit then
           o2 ++ (idx.filter (nameMatch (lowerStr q))).take (limit - o2.length)
         else o2
       o3.map leanPayload) :=
  querySuggest_closed idx q limit hq

/-- C6 amended witness: the closed form evaluated at the duplicate-producing
index and query. -/
theorem C6_passes_cumulative_no_dedup_witness :
    querySuggestRAM [c6Entry] "1" 20 =
      (let o1 := (([c6Entry] : List SuggestEntry).filter (lpMatch (lowerStr "1"))).take 20
       let o2 :=
         if o1.length < 20 ∧ ¬ digitsOf "1" = "" then
           o1 ++ (([c6Entry] : List SuggestEntry).filter (digitMatch (digitsOf "1"))).take (20 - o1.length)
         else o1
       let o3 :=
         if o2.length < 20 then
           o2 ++ (([c6Entry] : List SuggestEntry).filter (nameMatch (lowerStr "1"))).take (20 - o2.length)
         else o2
       o3.map leanPayload) :=
  C6_passes_cumulative_no_dedup [c6Entry] "1" 20 (by decide)

/-- `dropWhile` leaves a list unchanged when the predicate fails on every
element (only the head matters). -/
theorem dropWhile_all_false {p : Char → Bool} (l : List Char)
    (h : ∀ c ∈ l, p c = false) : l.dropWhile p = l := by
  cases l with
  | nil => rfl
  | cons c t =>
    rw [List.dropWhile_cons, h c (List.mem_cons_self c t)]
    simp

/-- `jsTrim` is the identity on whitespace-free strings. -/
theorem jsTrim_id (l : List Char) (h : ∀ c ∈ l, jsWs c = false) :
    jsTrim ⟨l⟩ = ⟨l⟩ := by
  unfold jsTrim
  show (⟨((l.dropWhile jsWs).reverse.dropWhile jsWs).reverse⟩ : String) = ⟨l⟩
  rw [dropWhile_all_false l h,
    dropWhile_all_false l.reverse (fun c hc => h c (List.mem_reverse.mp hc)),
    List.reverse_reverse]

/-- A decimal digit is not JS whitespace. -/
theorem digit_not_ws (c : Char) (h : c.isDigit = true) : jsWs c = false := by
  unfold jsWs
  simp only [Bool.or_eq_false_iff, decide_eq_false_iff_not]
  refine ⟨⟨⟨?_, ?_⟩, ?_⟩, ?_⟩ <;> rintro rfl <;> revert h <;> decide

/-- A decimal digit is not a dash. -/
theorem digit_ne_dash (c : Char) (h : c.isDigit = true) : c ≠ '-' := by
  rintro rfl
  revert h
  decide

/-- A dash-free run splits to itself. -/
theorem splitDash_no_dash (l : List Char) (h : '-' ∉ l) : splitDash l = [l] := by
  induction l with
  | nil => rfl
  | cons c t ih =>
    have hc : c ≠ '-' := fun e => h (e ▸ List.mem_cons_self c t)
    have ht : '-' ∉ t := fun m => h (List.mem_cons_of_mem c m)
    simp only [splitDash, if_neg hc, ih ht]

/-- Splitting starts afresh after a dash. -/
theorem splitDash_cons_dash (l : List Char) :
    splitDash ('-' :: l) = [] :: splitDash l := by
  simp [splitDash]

/-- Prepending a dash-free run extends the first component of the split. -/
theorem splitDash_append (a l : List Char) (ha : '-' ∉ a) (h : List Char)
    (t : List (List Char)) (hs : splitDash l = h :: t) :
    splitDash (a ++ l) = (a ++ h) :: t := by
  induction a with
  | nil => simpa using hs
  | cons c a' ih =>
    have hc : c ≠ '-' := fun e => ha (e ▸ List.mem_cons_self c a')
    have ha' : '-' ∉ a' := fun m => ha (List.mem_cons_of_mem c m)
    simp only [List.cons_append, splitDash, if_neg hc, List.append_eq, ih ha']

/-- `jsSetDedup` of a singleton is that singleton. -/
theorem jsSetDedup_singleton (x : String) : jsSetDedup [x] = [x] := by
  simp [jsSetDedup, jsSetDedupAux]

/-- Non-empty all-digit runs pass the `/^\d+$/` test. -/
theorem isAllDigits_of_digits (l : List Char) (hl : l ≠ [])
    (hdig : ∀ ch ∈ l, ch.isDigit = true) : isAllDigits l = true := by
  unfold isAllDigits
  cases l with
  | nil => exact absurd rfl hl
  | cons x t =>
    simp only [List.isEmpty_cons, Bool.not_false, Bool.true_and, List.all_eq_true]
    exact fun ch hm => hdig ch hm

/-- C10: on an input made of exactly three dash-separated non-empty all-digit
segments, `deriveLabelerProductCandidates` returns exactly one candidate —
the first two segments, each with leading zeros stripped (an all-zero
segment becoming "0"), rejoined with a dash — whether or not the segment
widths match a known NDC shape; such inputs are never rejected. -/
theorem C10_dashed_digit_segments (a b c : List Char)
    (ha : a ≠ []) (hb : b ≠ []) (hc : c ≠ [])
    (hda : ∀ ch ∈ a, ch.isDigit = true)
    (hdb : ∀ ch ∈ b, ch.isDigit = true)
    (hdc : ∀ ch ∈ c, ch.isDigit = true) :
    deriveLabelerProductCandidates ⟨a ++ '-' :: (b ++ '-' :: c)⟩ =
      [stripLeadingZeros ⟨a⟩ ++ "-" ++ stripLeadingZeros ⟨b⟩] := by
  have hne : (⟨a ++ '-' :: (b ++ '-' :: c)⟩ : String) ≠ "" := by
    intro e
    have hdata : a ++ '-' :: (b ++ '-' :: c) = [] := congrArg String.data e
    simp at hdata
  have hws : ∀ ch ∈ a ++ '-' :: (b ++ '-' :: c), jsWs ch = false := by
    intro ch hm
    rcases List.mem_append.mp hm with h | h
    · exact digit_not_ws ch (hda ch h)
    · rcases List.mem_cons.mp h with h | h
      · subst h; decide
      · rcases List.mem_append.mp h with h | h
        · exact digit_not_ws ch (hdb ch h)
        · rcases List.mem_cons.mp h with h | h
          · subst h; decide
          · exact digit_not_ws ch (hdc ch h)
  have hnda : '-' ∉ a := fun m => (digit_ne_dash '-' (hda '-' m)) rfl
  have hndb : '-' ∉ b := fun m => (digit_ne_dash '-' (hdb '-' m)) rfl
  have hndc : '-' ∉ c := fun m => (digit_ne_dash '-' (hdc '-' m)) rfl
  have hsplit : splitDash (a ++ '-' :: (b ++ '-' :: c)) = [a, b, c] := by
    have h1 : splitDash c = [c] := splitDash_no_dash c hndc
    have h2 : splitDash ('-' :: c) = [] :: [c] := by
      rw [splitDash_cons_dash, h1]
    have h3 : splitDash (b ++ '-' :: c) = [b, c] := by
      have := splitDash_append b ('-' :: c) hndb [] [c] (by simpa using h2)
      simpa using this
    have h4 : splitDash ('-' :: (b ++ '-' :: c)) = [] :: [b, c] := by
      rw [splitDash_cons_dash, h3]
    have h5 := splitDash_append a ('-' :: (b ++ '-' :: c)) hnda [] [b, c]
      (by simpa using h4)
    simpa using h5
  unfold deriveLabelerProductCandidates
  rw [if_neg hne]
  dsimp only
  rw [jsTrim_id _ hws]
  dsimp only
  rw [hsplit]
  dsimp only
  rw [if_pos (by rw [isAllDigits_of_digits a ha hda, isAllDigits_of_digits b hb hdb,
    isAllDigits_of_digits c hc hdc]; rfl)]
  rw [ite_self, jsSetDedup_singleton]
  rfl

/-- C10 witness: the unknown-shape dashed input "1-22-3" yields exactly the
single candidate "1-22". -/
theorem C10_dashed_digit_segments_witness :
    deriveLabelerProductCandidates "1-22-3" = ["1-22"] := by
  have h := C10_dashed_digit_segments ['1'] ['2', '2'] ['3']
    (by decide) (by decide) (by decide) (by decide) (by decide) (by decide)
  simpa using h
